import Mathlib

/-!
Verification of the `ModflowPks` solver-package class from
`flopy/modflow/mfpks.py`: a configuration object that validates the host
model version at construction, registers itself with the host model, and
serializes its parameters to a line-oriented PKS control file.

Modelling conventions:
* Machine integers are `Int` (Python integers are unbounded, so no modular
  arithmetic is needed).
* Float-valued parameters are carried as the text Python produces for them
  (`str(x)`), since `write_file` only ever interpolates them into lines and
  performs no arithmetic on them.
* Each `f.write("... \n")` call of `write_file` contributes one `Line`;
  `Line.render` recovers the exact text written (without the trailing
  newline), and `renderLines` the whole file contents.
* The Python exception raised when `.lower()` is called on a non-string
  `l2norm` value is modelled with `Except String`.
-/

/-- A Python scalar that may be stored in the `l2norm` field: the code
expects a string, but nothing stops a caller from storing an integer, in
which case `self.l2norm.lower()` raises `AttributeError`. -/
inductive PyVal where
  | str (s : String)
  | int (n : Int)
deriving DecidableEq

/-- One line of the PKS control file as written by `write_file`: the
free-form heading comment, a `KEY value` pair, or a bare keyword line. -/
inductive Line where
  | heading (s : String)
  | kv (key : String) (val : String)
  | kw (key : String)
deriving DecidableEq

/-- The exact text `f.write` produces for a line (without the trailing
newline added by the `"...\n"` format strings). -/
def Line.render : Line → String
  | .heading s => s
  | .kv k v => k ++ " " ++ v
  | .kw k => k

/-- The full text of the file: every `f.write` call appends a newline. -/
def renderLines : List Line → String
  | [] => ""
  | l :: ls => l.render ++ "\n" ++ renderLines ls

/-- Whether a line is a `KEY value` line with the given key. -/
def Line.hasKey (k : String) : Line → Bool
  | .kv key _ => key == k
  | _ => false

/-- Whether a line is a bare keyword line with the given keyword. -/
def Line.isBare (k : String) : Line → Bool
  | .kw key => key == k
  | _ => false

/-- Number of `KEY value` lines with the given key. -/
def keyCount (lines : List Line) (k : String) : Nat :=
  lines.countP (Line.hasKey k)

/-- Number of bare keyword lines with the given keyword. -/
def bareCount (lines : List Line) (k : String) : Nat :=
  lines.countP (Line.isBare k)

/-- The state of a `ModflowPks` instance after `__init__` has run: every
attribute assigned in the constructor, plus the attributes set by the
ancestor `Package.__init__` that this module uses (`name`, `extension`,
unit number, file name). The `self.parent` back-reference is not stored;
functions that need the host model take it explicitly. -/
structure ModflowPks where
  heading : String
  url : String
  mxiter : Int
  innerit : Int
  isolver : Int
  npc : Int
  iscl : Int
  iord : Int
  ncoresm : Int
  ncoresv : Int
  damp : String
  dampt : String
  relax : String
  ifill : Int
  droptol : String
  hclose : String
  rclose : String
  l2norm : Option PyVal
  iprpks : Int
  mutpks : Int
  mpi : Bool
  partopt : Int
  novlapimpsol : Int
  stenimpsol : Int
  verbose : Int
  partdata : Option Unit
  name : List String
  extension : String
  unit_number : Int
  file_name : Option String
deriving DecidableEq

/-- Python `str.lower()` (the strings compared against are ASCII, for which
lowering is exactly a character map). -/
def pyLower (s : String) : String := ⟨s.data.map Char.toLower⟩

/-- The norm-selection branch of `write_file`:

    if self.l2norm != None:
        if self.l2norm.lower() == "l2norm" or self.l2norm == "1":
            f.write("L2NORM\n")
        elif self.l2norm.lower() == "rl2norm" or self.l2norm == "2":
            f.write("RELATIVE-L2NORM\n")

`.lower()` is evaluated before either comparison, so a non-string value
raises `AttributeError` before anything is compared. -/
def normLines : Option PyVal → Except String (List Line)
  | none => .ok []
  | some (.int _) => .error "AttributeError: int object has no attribute lower"
  | some (.str s) =>
    if pyLower s = "l2norm" ∨ s = "1" then .ok [Line.kw "L2NORM"]
    else if pyLower s = "rl2norm" ∨ s = "2" then .ok [Line.kw "RELATIVE-L2NORM"]
    else .ok []

/-- The sequence of lines `write_file` emits, given the lines `nl` produced
by the norm-selection branch. Mirrors the body of
`ModflowPks.write_file` write by write. In the last conditional, Python
parses `self.partopt == 1 | 2` as `self.partopt == (1 | 2)`, i.e.
`self.partopt == 3`, and the body is `pass`, so no lines are emitted
either way. -/
def wbody (p : ModflowPks) (nl : List Line) : List Line :=
  [Line.heading p.heading,
   Line.kv "MXITER" (toString p.mxiter),
   Line.kv "INNERIT" (toString p.innerit),
   Line.kv "ISOLVER" (toString p.isolver),
   Line.kv "NPC" (toString p.npc),
   Line.kv "ISCL" (toString p.iscl),
   Line.kv "IORD" (toString p.iord)]
  ++ (if p.ncoresm > 1 then [Line.kv "NCORESM" (toString p.ncoresm)] else [])
  ++ (if p.ncoresv > 1 then [Line.kv "NCORESV" (toString p.ncoresv)] else [])
  ++ [Line.kv "DAMP" p.damp,
      Line.kv "DAMPT" p.dampt]
  ++ (if p.npc > 0 then [Line.kv "RELAX" p.relax] else [])
  ++ (if p.npc = 3 then [Line.kv "IFILL" (toString p.ifill),
                         Line.kv "DROPTOL" p.droptol] else [])
  ++ [Line.kv "HCLOSEPKS" p.hclose,
      Line.kv "RCLOSEPKS" p.rclose]
  ++ nl
  ++ [Line.kv "IPRPKS" (toString p.iprpks),
      Line.kv "MUTPKS" (toString p.mutpks)]
  ++ (if p.mpi then
        [Line.kv "PARTOPT" (toString p.partopt),
         Line.kv "NOVLAPIMPSOL" (toString p.novlapimpsol),
         Line.kv "STENIMPSOL" (toString p.stenimpsol),
         Line.kv "VERBOSE" (toString p.verbose)]
        ++ (if p.partopt = 3 then [] else [])
      else [])
  ++ [Line.kw "END"]

/-- Serialization, source method `write_file`: serialize the package to its control file.
Returns the list of lines written, or the Python exception message when
the norm-selection branch raises (in which case the real code aborts
mid-file; no completed output exists). -/
def write_file (p : ModflowPks) : Except String (List Line) :=
  match normLines p.l2norm with
  | .error e => .error e
  | .ok nl => .ok (wbody p nl)

/-- The full file text produced by a successful `write_file` call. -/
def write_file_text (p : ModflowPks) : Except String String :=
  (write_file p).map renderLines

/-- The host model, as far as this module uses it: its `version` string,
its `verbose` flag (read by `load`), and its list of registered packages
(appended to by `add_package`). -/
structure Model where
  version : String
  verbose : Bool
  packages : List ModflowPks
deriving DecidableEq

/-- Modelled from the spec: `Model.add_package` lives in the host
framework (`flopy`'s model class), not in this repository's sources; the
spec says registration is a single append to the model's list of active
packages. -/
def Model.add_package (m : Model) (p : ModflowPks) : Model :=
  { m with packages := m.packages ++ [p] }

/-- Modelled from the spec: `Package._generate_heading` lives in the host
framework (`pakbase`), not in this repository's sources; the spec says
only that the heading is a free-form comment line generated once at
construction from model metadata. -/
def generate_heading (m : Model) : String :=
  "# PKS package for MODFLOW version " ++ m.version ++ ", generated by Flopy."

/-- Source name `_ftype`. -/
def ModflowPks.ftype : String := "PKS"

/-- Source name `_defaultunit`. -/
def ModflowPks.defaultunit : Int := 27

/-- Python `str.format` of a list of strings, as used in the version-error
message (`"{}".format(self.name)` with `self.name = ["PKS"]` gives the
text `[` `\x27PKS\x27` `]`). -/
def pyStrListRepr (xs : List String) : String :=
  "[" ++ String.intercalate ", " (xs.map (fun s => "\x27" ++ s ++ "\x27")) ++ "]"

/-- The `filenames` argument of the constructor: `None`, a single string,
or a list of optional strings. -/
inductive PyFilenames where
  | pstr (s : String)
  | plist (l : List (Option String))
deriving DecidableEq

/-- The `filenames` normalization at the top of `__init__`:
`None` becomes `[None]`, a single string becomes a one-element list. -/
def normalizeFilenames : Option PyFilenames → List (Option String)
  | none => [none]
  | some (.pstr s) => [some s]
  | some (.plist l) => l

/-- The keyword arguments of `ModflowPks.__init__`, with their Python
default values (float defaults rendered as Python renders them:
`1e-3` is `0.001`, `1e-1` is `0.1`). -/
structure PksParams where
  mxiter : Int := 100
  innerit : Int := 50
  isolver : Int := 1
  npc : Int := 2
  iscl : Int := 0
  iord : Int := 0
  ncoresm : Int := 1
  ncoresv : Int := 1
  damp : String := "1.0"
  dampt : String := "1.0"
  relax : String := "0.97"
  ifill : Int := 0
  droptol : String := "0.0"
  hclose : String := "0.001"
  rclose : String := "0.1"
  l2norm : Option PyVal := none
  iprpks : Int := 0
  mutpks : Int := 3
  mpi : Bool := false
  partopt : Int := 0
  novlapimpsol : Int := 1
  stenimpsol : Int := 2
  verbose : Int := 0
  partdata : Option Unit := none
  extension : String := "pks"
  unitnumber : Option Int := none
  filenames : Option PyFilenames := none
deriving DecidableEq

/-- Construction, source method `__init__`: pick the default unit number when none is
given, normalize `filenames` and take `fname = [filenames[0]]` — which
raises `IndexError` when the caller passed an explicit empty filenames
list, and does so before the version check — then run the ancestor
`Package.__init__` (which sets `name`, `extension`, unit number and file
name), check the model version, assign all attributes, and register the
new instance with the host model via `add_package`. Returns the new
instance together with the updated model, or the error message of the
exception raised. -/
def ModflowPks.init (model : Model) (a : PksParams) :
    Except String (ModflowPks × Model) :=
  let unitnumber : Int := a.unitnumber.getD ModflowPks.defaultunit
  let filenames : List (Option String) := normalizeFilenames a.filenames
  let name : List String := [ModflowPks.ftype]
  match filenames with
  | [] => .error "IndexError: list index out of range"
  | fname :: _ =>
    if model.version = "mf2k" ∨ model.version = "mfnwt" then
      .error ("Error: cannot use " ++ pyStrListRepr name
        ++ " package with model version " ++ model.version)
    else
      let p : ModflowPks :=
        { heading := generate_heading model
          url := "pks.htm"
          mxiter := a.mxiter
          innerit := a.innerit
          isolver := a.isolver
          npc := a.npc
          iscl := a.iscl
          iord := a.iord
          ncoresm := a.ncoresm
          ncoresv := a.ncoresv
          damp := a.damp
          dampt := a.dampt
          relax := a.relax
          ifill := a.ifill
          droptol := a.droptol
          hclose := a.hclose
          rclose := a.rclose
          l2norm := a.l2norm
          iprpks := a.iprpks
          mutpks := a.mutpks
          mpi := a.mpi
          partopt := a.partopt
          novlapimpsol := a.novlapimpsol
          stenimpsol := a.stenimpsol
          verbose := a.verbose
          partdata := a.partdata
          name := name
          extension := a.extension
          unit_number := unitnumber
          file_name := fname }
      .ok (p, Model.add_package model p)

/-- One entry of the external-unit dictionary: a file-type tag, an I/O
unit number and a filename. -/
structure ExtFileEntry where
  filetype : String
  unit_no : Int
  filename : String
deriving DecidableEq

/-- Modelled from the spec: `model.get_ext_dict_attr` lives in the host
framework, not in this repository's sources; the spec says it resolves
the unit number and filename for a file-type tag from the external-unit
table (absent tags resolve to nothing). -/
def get_ext_dict_attr (d : List ExtFileEntry) (filetype : String) :
    Option Int × Option String :=
  match d.find? (fun e => e.filetype == filetype) with
  | some e => (some e.unit_no, some e.filename)
  | none => (none, none)

/-- Deserialization stub, source method `load`. The file reference `f`
stands for the file (path or handle); its contents are never consumed.
Always prints a warning (and, when the model is verbose, a progress
message) and constructs a default instance, binding the unit number and
filename resolved from the external-unit table when one is supplied.
Returns the instance, the updated model, and the console output. -/
def ModflowPks.load (f : String) (model : Model)
    (ext_unit_dict : Option (List ExtFileEntry)) :
    Except String (ModflowPks × Model × List String) :=
  let console : List String :=
    (if model.verbose then ["loading pks package file..."] else [])
      ++ ["   Warning: load method not completed. default pks object created."]
  let r : Option Int × Option String :=
    match ext_unit_dict with
    | none => (none, none)
    | some d => get_ext_dict_attr d ModflowPks.ftype
  match ModflowPks.init model
      { unitnumber := r.1, filenames := some (PyFilenames.plist [r.2]) } with
  | .error e => .error e
  | .ok (p, m) => .ok (p, m, console)

/-- Concrete fully populated configuration with the construction defaults
(`npc = 2`, `l2norm = None`, `mpi = False`). -/
def pksA : ModflowPks :=
  { heading := "# PKS package test heading"
    url := "pks.htm"
    mxiter := 100, innerit := 50, isolver := 1, npc := 2, iscl := 0, iord := 0
    ncoresm := 1, ncoresv := 1, damp := "1.0", dampt := "1.0", relax := "0.97"
    ifill := 0, droptol := "0.0", hclose := "0.001", rclose := "0.1"
    l2norm := none, iprpks := 0, mutpks := 3, mpi := false, partopt := 0
    novlapimpsol := 1, stenimpsol := 2, verbose := 0, partdata := none
    name := ["PKS"], extension := "pks", unit_number := 27, file_name := none }

/-- Variant of [pksA] with `npc = 3`. -/
def pksB : ModflowPks := { pksA with npc := 3 }
/-- Variant of [pksA] with `l2norm` set to the string token `L2NORM`. -/
def pksC : ModflowPks := { pksA with l2norm := some (PyVal.str "L2NORM") }
/-- Variant of [pksA] with the parallel-mode flag `mpi` set. -/
def pksE : ModflowPks := { pksA with mpi := true }
/-- Variant of [pksA] with `l2norm` set to an unrecognized string token. -/
def pksF : ModflowPks := { pksA with l2norm := some (PyVal.str "unknown") }
/-- Variant of [pksA] with `ncoresm = 4`. -/
def pksG : ModflowPks := { pksA with ncoresm := 4 }
/-- Variant of [pksA] with `l2norm` set to the integer 1. -/
def pksJ : ModflowPks := { pksA with l2norm := some (PyVal.int 1) }

/-- Host model with a compatible version. -/
def mfA : Model := { version := "mf2005", verbose := false, packages := [] }
/-- Host model with the excluded version `mf2k`. -/
def mBad : Model := { version := "mf2k", verbose := false, packages := [] }
/-- External-unit table entry for the `PKS` file type. -/
def eEx : ExtFileEntry := { filetype := "PKS", unit_no := 51, filename := "model.pks" }

/-- The configuration `load` produces for model [mfA] and the table `[eEx]`:
all tuning parameters at their defaults, bound to unit 51 and `model.pks`. -/
def pH : ModflowPks :=
  { heading := "# PKS package for MODFLOW version mf2005, generated by Flopy."
    url := "pks.htm"
    mxiter := 100, innerit := 50, isolver := 1, npc := 2, iscl := 0, iord := 0
    ncoresm := 1, ncoresv := 1, damp := "1.0", dampt := "1.0", relax := "0.97"
    ifill := 0, droptol := "0.0", hclose := "0.001", rclose := "0.1"
    l2norm := none, iprpks := 0, mutpks := 3, mpi := false, partopt := 0
    novlapimpsol := 1, stenimpsol := 2, verbose := 0, partdata := none
    name := ["PKS"], extension := "pks", unit_number := 51
    file_name := some "model.pks" }
/-- Model [mfA] after [pH] registered itself. -/
def mH : Model := { version := "mf2005", verbose := false, packages := [pH] }
/-- Console output of the `load` call: the incomplete-load warning. -/
def outH : List String :=
  ["   Warning: load method not completed. default pks object created."]

theorem normLines_ok_cases {o : Option PyVal} {nl : List Line}
    (h : normLines o = .ok nl) :
    nl = [] ∨ nl = [Line.kw "L2NORM"] ∨ nl = [Line.kw "RELATIVE-L2NORM"] := by
  match o with
  | none => simp [normLines] at h; simp [h.symm]
  | some (.int n) => simp [normLines] at h
  | some (.str s) =>
    simp only [normLines] at h
    split at h
    · simp at h; simp [h.symm]
    · split at h <;> simp at h <;> simp [h.symm]

theorem write_file_ok_elim {p : ModflowPks} {lines : List Line}
    (h : write_file p = .ok lines) :
    ∃ nl, normLines p.l2norm = .ok nl ∧ lines = wbody p nl := by
  unfold write_file at h
  split at h
  · exact absurd h (by simp)
  · exact ⟨_, by assumption, by simp at h; exact h.symm⟩




theorem normLines_keyCount {o : Option PyVal} {nl : List Line}
    (h : normLines o = .ok nl) (k : String) :
    nl.countP (Line.hasKey k) = 0 := by
  rcases normLines_ok_cases h with h1 | h1 | h1 <;> subst h1 <;> rfl

theorem bareCount_wbody_eq (p : ModflowPks) (nl : List Line) (k : String)
    (hk : ("END" == k) = false) :
    bareCount (wbody p nl) k = nl.countP (Line.isBare k) := by
  simp [wbody, bareCount, List.countP_append, List.countP_cons,
    apply_ite (List.countP (Line.isBare k)), Line.isBare, hk]

/-- C1: for every fully populated configuration, the serialized output of
`write_file` contains a RELAX line if and only if the preconditioner code
`npc` is greater than 0: for `npc <= 0` no RELAX line appears, and for
`npc > 0` exactly one line `RELAX <value>` appears, carrying `relax`. -/
theorem relax_line_iff_npc_pos (p : ModflowPks) (lines : List Line)
    (h : write_file p = .ok lines) :
    (p.npc ≤ 0 → keyCount lines "RELAX" = 0) ∧
    (0 < p.npc → keyCount lines "RELAX" = 1 ∧ Line.kv "RELAX" p.relax ∈ lines) := by
  obtain ⟨nl, hn, rfl⟩ := write_file_ok_elim h
  constructor
  · intro hle
    have hnot : ¬ (0 : Int) < p.npc := by omega
    have hne : p.npc ≠ 3 := by omega
    simp only [wbody, keyCount, List.countP_append]
    rw [normLines_keyCount hn]
    simp [List.countP_cons, apply_ite (List.countP (Line.hasKey "RELAX")),
      Line.hasKey, hnot, hne]
  · intro hpos
    constructor
    · simp only [wbody, keyCount, List.countP_append]
      rw [normLines_keyCount hn]
      simp [List.countP_cons, apply_ite (List.countP (Line.hasKey "RELAX")),
        Line.hasKey, hpos]
    · simp [wbody, hpos]

/-- C7: `write_file` emits an NCORESM line if and only if `ncoresm > 1`
and an NCORESV line if and only if `ncoresv > 1`; for values `<= 1`
(including the defaults of 1) the corresponding line is absent. -/
theorem ncores_lines_iff_gt_one (p : ModflowPks) (lines : List Line)
    (h : write_file p = .ok lines) :
    keyCount lines "NCORESM" = (if p.ncoresm > 1 then 1 else 0) ∧
    keyCount lines "NCORESV" = (if p.ncoresv > 1 then 1 else 0) ∧
    (p.ncoresm > 1 → Line.kv "NCORESM" (toString p.ncoresm) ∈ lines) ∧
    (p.ncoresv > 1 → Line.kv "NCORESV" (toString p.ncoresv) ∈ lines) := by
  obtain ⟨nl, hn, rfl⟩ := write_file_ok_elim h
  refine ⟨?_, ?_, ?_, ?_⟩
  · simp only [wbody, keyCount, List.countP_append]
    rw [normLines_keyCount hn]
    simp [List.countP_cons, apply_ite (List.countP (Line.hasKey "NCORESM")),
      Line.hasKey]
  · simp only [wbody, keyCount, List.countP_append]
    rw [normLines_keyCount hn]
    simp [List.countP_cons, apply_ite (List.countP (Line.hasKey "NCORESV")),
      Line.hasKey]
  · intro hg; simp [wbody, hg]
  · intro hg; simp [wbody, hg]

/-- C2: the output of `write_file` contains an IFILL line and a DROPTOL
line if and only if `npc = 3`, and when present they are emitted
together, IFILL immediately followed by DROPTOL; for `npc ≠ 3` neither
line appears. -/
theorem ifill_droptol_iff_npc_eq_three (p : ModflowPks) (lines : List Line)
    (h : write_file p = .ok lines) :
    (p.npc ≠ 3 → keyCount lines "IFILL" = 0 ∧ keyCount lines "DROPTOL" = 0) ∧
    (p.npc = 3 → keyCount lines "IFILL" = 1 ∧ keyCount lines "DROPTOL" = 1 ∧
      ∃ pre suf, lines = pre ++ [Line.kv "IFILL" (toString p.ifill),
                                 Line.kv "DROPTOL" p.droptol] ++ suf) := by
  obtain ⟨nl, hn, rfl⟩ := write_file_ok_elim h
  constructor
  · intro hne
    constructor
    · simp only [wbody, keyCount, List.countP_append]
      rw [normLines_keyCount hn]
      simp [List.countP_cons, apply_ite (List.countP (Line.hasKey "IFILL")),
        Line.hasKey, hne]
    · simp only [wbody, keyCount, List.countP_append]
      rw [normLines_keyCount hn]
      simp [List.countP_cons, apply_ite (List.countP (Line.hasKey "DROPTOL")),
        Line.hasKey, hne]
  · intro h3
    refine ⟨?_, ?_, ?_⟩
    · simp only [wbody, keyCount, List.countP_append]
      rw [normLines_keyCount hn]
      simp [List.countP_cons, apply_ite (List.countP (Line.hasKey "IFILL")),
        Line.hasKey, h3]
    · simp only [wbody, keyCount, List.countP_append]
      rw [normLines_keyCount hn]
      simp [List.countP_cons, apply_ite (List.countP (Line.hasKey "DROPTOL")),
        Line.hasKey, h3]
    · refine ⟨[Line.heading p.heading, Line.kv "MXITER" (toString p.mxiter),
          Line.kv "INNERIT" (toString p.innerit),
          Line.kv "ISOLVER" (toString p.isolver),
          Line.kv "NPC" (toString p.npc), Line.kv "ISCL" (toString p.iscl),
          Line.kv "IORD" (toString p.iord)]
          ++ (if p.ncoresm > 1 then [Line.kv "NCORESM" (toString p.ncoresm)] else [])
          ++ (if p.ncoresv > 1 then [Line.kv "NCORESV" (toString p.ncoresv)] else [])
          ++ [Line.kv "DAMP" p.damp, Line.kv "DAMPT" p.dampt,
              Line.kv "RELAX" p.relax],
        [Line.kv "HCLOSEPKS" p.hclose, Line.kv "RCLOSEPKS" p.rclose] ++ nl
          ++ [Line.kv "IPRPKS" (toString p.iprpks),
              Line.kv "MUTPKS" (toString p.mutpks)]
          ++ (if p.mpi then [Line.kv "PARTOPT" (toString p.partopt),
              Line.kv "NOVLAPIMPSOL" (toString p.novlapimpsol),
              Line.kv "STENIMPSOL" (toString p.stenimpsol),
              Line.kv "VERBOSE" (toString p.verbose)]
              ++ (if p.partopt = 3 then [] else []) else [])
          ++ [Line.kw "END"], ?_⟩
      simp [wbody, h3]

/-- C5: when the parallel-mode flag `mpi` is true, `write_file` emits
exactly four additional lines PARTOPT, NOVLAPIMPSOL, STENIMPSOL, VERBOSE,
in that fixed order, immediately after the MUTPKS line and immediately
before the END line, with no further partition-data lines for any value
of `partopt`; when `mpi` is false none of the four lines appear. -/
theorem mpi_partition_block (p : ModflowPks) (lines : List Line)
    (h : write_file p = .ok lines) :
    (p.mpi = true →
      (∃ front, lines = front ++
        [Line.kv "MUTPKS" (toString p.mutpks),
         Line.kv "PARTOPT" (toString p.partopt),
         Line.kv "NOVLAPIMPSOL" (toString p.novlapimpsol),
         Line.kv "STENIMPSOL" (toString p.stenimpsol),
         Line.kv "VERBOSE" (toString p.verbose),
         Line.kw "END"]) ∧
      keyCount lines "PARTOPT" = 1 ∧ keyCount lines "NOVLAPIMPSOL" = 1 ∧
      keyCount lines "STENIMPSOL" = 1 ∧ keyCount lines "VERBOSE" = 1) ∧
    (p.mpi = false →
      keyCount lines "PARTOPT" = 0 ∧ keyCount lines "NOVLAPIMPSOL" = 0 ∧
      keyCount lines "STENIMPSOL" = 0 ∧ keyCount lines "VERBOSE" = 0) := by
  obtain ⟨nl, hn, rfl⟩ := write_file_ok_elim h
  constructor
  · intro hmpi
    refine ⟨⟨[Line.heading p.heading, Line.kv "MXITER" (toString p.mxiter),
        Line.kv "INNERIT" (toString p.innerit),
        Line.kv "ISOLVER" (toString p.isolver),
        Line.kv "NPC" (toString p.npc), Line.kv "ISCL" (toString p.iscl),
        Line.kv "IORD" (toString p.iord)]
        ++ (if p.ncoresm > 1 then [Line.kv "NCORESM" (toString p.ncoresm)] else [])
        ++ (if p.ncoresv > 1 then [Line.kv "NCORESV" (toString p.ncoresv)] else [])
        ++ [Line.kv "DAMP" p.damp, Line.kv "DAMPT" p.dampt]
        ++ (if p.npc > 0 then [Line.kv "RELAX" p.relax] else [])
        ++ (if p.npc = 3 then [Line.kv "IFILL" (toString p.ifill),
                               Line.kv "DROPTOL" p.droptol] else [])
        ++ [Line.kv "HCLOSEPKS" p.hclose, Line.kv "RCLOSEPKS" p.rclose] ++ nl
        ++ [Line.kv "IPRPKS" (toString p.iprpks)], ?_⟩, ?_, ?_, ?_, ?_⟩
    · simp [wbody, hmpi]
    all_goals
      simp only [wbody, keyCount, List.countP_append]
      rw [normLines_keyCount hn]
    · simp [List.countP_cons, apply_ite (List.countP (Line.hasKey "PARTOPT")),
        Line.hasKey, hmpi]
    · simp [List.countP_cons, apply_ite (List.countP (Line.hasKey "NOVLAPIMPSOL")),
        Line.hasKey, hmpi]
    · simp [List.countP_cons, apply_ite (List.countP (Line.hasKey "STENIMPSOL")),
        Line.hasKey, hmpi]
    · simp [List.countP_cons, apply_ite (List.countP (Line.hasKey "VERBOSE")),
        Line.hasKey, hmpi]
  · intro hmpi
    refine ⟨?_, ?_, ?_, ?_⟩
    all_goals
      simp only [wbody, keyCount, List.countP_append]
      rw [normLines_keyCount hn]
    · simp [List.countP_cons, apply_ite (List.countP (Line.hasKey "PARTOPT")),
        Line.hasKey, hmpi]
    · simp [List.countP_cons, apply_ite (List.countP (Line.hasKey "NOVLAPIMPSOL")),
        Line.hasKey, hmpi]
    · simp [List.countP_cons, apply_ite (List.countP (Line.hasKey "STENIMPSOL")),
        Line.hasKey, hmpi]
    · simp [List.countP_cons, apply_ite (List.countP (Line.hasKey "VERBOSE")),
        Line.hasKey, hmpi]

theorem str_append_assoc (a b c : String) : a ++ b ++ c = a ++ (b ++ c) := by
  apply String.ext
  simp [String.data_append, List.append_assoc]

theorem renderLines_append (xs ys : List Line) :
    renderLines (xs ++ ys) = renderLines xs ++ renderLines ys := by
  induction xs with
  | nil =>
    apply String.ext
    simp [renderLines, String.data_append]
  | cons l ls ih =>
    show l.render ++ "\n" ++ renderLines (ls ++ ys) =
      l.render ++ "\n" ++ renderLines ls ++ renderLines ys
    rw [ih, ← str_append_assoc]

/-- C9: the output of `write_file` terminates with a final line that is
exactly `END`, and no lines follow it (also at the level of the rendered
file text, which ends with `END` and a newline). -/
theorem output_ends_with_end (p : ModflowPks) (lines : List Line)
    (h : write_file p = .ok lines) :
    lines.getLast? = some (Line.kw "END") ∧
    ∃ t, renderLines lines = t ++ "END\n" := by
  obtain ⟨nl, hn, rfl⟩ := write_file_ok_elim h
  obtain ⟨front, hf⟩ : ∃ front, wbody p nl = front ++ [Line.kw "END"] := by
    refine ⟨[Line.heading p.heading, Line.kv "MXITER" (toString p.mxiter),
        Line.kv "INNERIT" (toString p.innerit),
        Line.kv "ISOLVER" (toString p.isolver),
        Line.kv "NPC" (toString p.npc), Line.kv "ISCL" (toString p.iscl),
        Line.kv "IORD" (toString p.iord)]
        ++ (if p.ncoresm > 1 then [Line.kv "NCORESM" (toString p.ncoresm)] else [])
        ++ (if p.ncoresv > 1 then [Line.kv "NCORESV" (toString p.ncoresv)] else [])
        ++ [Line.kv "DAMP" p.damp, Line.kv "DAMPT" p.dampt]
        ++ (if p.npc > 0 then [Line.kv "RELAX" p.relax] else [])
        ++ (if p.npc = 3 then [Line.kv "IFILL" (toString p.ifill),
                               Line.kv "DROPTOL" p.droptol] else [])
        ++ [Line.kv "HCLOSEPKS" p.hclose, Line.kv "RCLOSEPKS" p.rclose] ++ nl
        ++ [Line.kv "IPRPKS" (toString p.iprpks),
            Line.kv "MUTPKS" (toString p.mutpks)]
        ++ (if p.mpi then [Line.kv "PARTOPT" (toString p.partopt),
            Line.kv "NOVLAPIMPSOL" (toString p.novlapimpsol),
            Line.kv "STENIMPSOL" (toString p.stenimpsol),
            Line.kv "VERBOSE" (toString p.verbose)]
            ++ (if p.partopt = 3 then [] else []) else []), ?_⟩
    simp [wbody]
  rw [hf]
  constructor
  · simp
  · refine ⟨renderLines front, ?_⟩
    rw [renderLines_append]
    have : renderLines [Line.kw "END"] = "END\n" := by decide
    rw [this]

/-- C6: when `l2norm` is set to a string matching neither recognized token
family, `write_file` emits no norm line and raises no error: its output
is exactly the output for the same configuration with `l2norm = None`. -/
theorem unrecognized_norm_token_silent (p : ModflowPks) (s : String)
    (hs : p.l2norm = some (PyVal.str s))
    (h1 : ¬(pyLower s = "l2norm" ∨ s = "1"))
    (h2 : ¬(pyLower s = "rl2norm" ∨ s = "2")) :
    write_file p = write_file { p with l2norm := none } ∧
    ∀ lines, write_file p = .ok lines →
      bareCount lines "L2NORM" = 0 ∧ bareCount lines "RELATIVE-L2NORM" = 0 := by
  have hw : write_file p = write_file { p with l2norm := none } := by
    simp only [write_file, hs, normLines, if_neg h1, if_neg h2]
    rfl
  refine ⟨hw, ?_⟩
  intro lines h
  obtain ⟨nl, hn, rfl⟩ := write_file_ok_elim h
  rw [hs] at hn
  simp only [normLines, if_neg h1, if_neg h2] at hn
  obtain rfl : ([] : List Line) = nl := by simpa using hn
  rw [bareCount_wbody_eq p [] "L2NORM" (by decide),
    bareCount_wbody_eq p [] "RELATIVE-L2NORM" (by decide)]
  exact ⟨rfl, rfl⟩

/-- C10: when `l2norm` holds a non-`None` value that is not a string (an
integer), `write_file` raises an `AttributeError` while evaluating the
norm branch instead of emitting a norm line or silently skipping it. -/
theorem nonstring_l2norm_raises (p : ModflowPks) (n : Int)
    (hl : p.l2norm = some (PyVal.int n)) :
    write_file p = .error "AttributeError: int object has no attribute lower" := by
  simp [write_file, normLines, hl]

/-- C3: `write_file` emits at most one norm line, decided by `l2norm`:
if `l2norm` lowercased equals `l2norm` or equals the string `1`, exactly
one bare line `L2NORM`; otherwise if it lowercased equals `rl2norm` or
equals the string `2`, exactly one bare line `RELATIVE-L2NORM`; if
`l2norm` is `None`, no norm line. -/
theorem norm_line_selection (p : ModflowPks) (lines : List Line)
    (h : write_file p = .ok lines) :
    bareCount lines "L2NORM" + bareCount lines "RELATIVE-L2NORM" ≤ 1 ∧
    (p.l2norm = none →
      bareCount lines "L2NORM" = 0 ∧ bareCount lines "RELATIVE-L2NORM" = 0) ∧
    ∀ s, p.l2norm = some (PyVal.str s) →
      ((pyLower s = "l2norm" ∨ s = "1") →
        bareCount lines "L2NORM" = 1 ∧ bareCount lines "RELATIVE-L2NORM" = 0) ∧
      (¬(pyLower s = "l2norm" ∨ s = "1") → (pyLower s = "rl2norm" ∨ s = "2") →
        bareCount lines "L2NORM" = 0 ∧ bareCount lines "RELATIVE-L2NORM" = 1) := by
  obtain ⟨nl, hn, rfl⟩ := write_file_ok_elim h
  have hL := bareCount_wbody_eq p nl "L2NORM" (by decide)
  have hR := bareCount_wbody_eq p nl "RELATIVE-L2NORM" (by decide)
  refine ⟨?_, ?_, ?_⟩
  · rw [hL, hR]
    rcases normLines_ok_cases hn with h1 | h1 | h1 <;> subst h1 <;> decide
  · intro h0
    rw [h0] at hn
    obtain rfl : ([] : List Line) = nl := by simpa [normLines] using hn
    rw [hL, hR]
    exact ⟨rfl, rfl⟩
  · intro s hs
    rw [hs] at hn
    simp only [normLines] at hn
    constructor
    · intro hc
      rw [if_pos hc] at hn
      obtain rfl : [Line.kw "L2NORM"] = nl := by simpa using hn
      rw [hL, hR]
      exact ⟨by decide, by decide⟩
    · intro hc1 hc2
      rw [if_neg hc1, if_pos hc2] at hn
      obtain rfl : [Line.kw "RELATIVE-L2NORM"] = nl := by simpa using hn
      rw [hL, hR]
      exact ⟨by decide, by decide⟩

/-- C4 (amended): provided the filenames argument is `None`, a single
string, or a non-empty list — so that `filenames[0]` exists — constructing
with a host model whose version is `mf2k` or `mfnwt` raises a fatal error
identifying the package name and the model version, and nothing is
appended to the model package list; with any other version no error is
raised and the new instance is appended to the package list. (With an
explicit empty filenames list the code instead raises `IndexError` at
`filenames[0]`, before the version check — see the counterexample.) -/
theorem init_version_check (m : Model) (a : PksParams)
    (hf : normalizeFilenames a.filenames ≠ []) :
    ((m.version = "mf2k" ∨ m.version = "mfnwt") →
      ModflowPks.init m a =
        .error ("Error: cannot use [\x27PKS\x27] package with model version "
          ++ m.version)) ∧
    (¬(m.version = "mf2k" ∨ m.version = "mfnwt") →
      ∃ p m2, ModflowPks.init m a = .ok (p, m2) ∧
        m2.packages = m.packages ++ [p]) := by
  rcases hfl : normalizeFilenames a.filenames with _ | ⟨f0, rest⟩
  · exact absurd hfl hf
  · constructor
    · intro hv
      simp only [ModflowPks.init, hfl, if_pos hv]
      rfl
    · intro hv
      simp only [ModflowPks.init, hfl, if_neg hv]
      exact ⟨_, _, rfl, rfl⟩

/-- C4 counterexample: with an explicit empty filenames list, `__init__`
raises `IndexError` at `filenames[0]` before the version check is
reached, so with version `mf2k` the error raised is not the fatal version
error naming the package and version, and with a compatible version
construction does not succeed and nothing is appended. -/
theorem init_version_check_counterexample :
    ModflowPks.init mBad { filenames := some (PyFilenames.plist []) } =
      .error "IndexError: list index out of range" ∧
    "IndexError: list index out of range" ≠
      "Error: cannot use [\x27PKS\x27] package with model version mf2k" ∧
    ModflowPks.init mfA { filenames := some (PyFilenames.plist []) } =
      .error "IndexError: list index out of range" :=
  ⟨rfl, by decide, rfl⟩



/-- C8: `load` ignores the file contents entirely (any two file references
give the same result); when it returns an instance, every solver tuning
parameter has its construction-default value, the console output contains
the incomplete-load warning, and the instance is bound to the default
unit number 27 when no external-unit table is supplied, otherwise to the
unit number and filename resolved from the table for file type `PKS`. -/
theorem load_returns_defaults (f1 f2 : String) (m : Model)
    (d : Option (List ExtFileEntry)) :
    ModflowPks.load f1 m d = ModflowPks.load f2 m d ∧
    ∀ p m2 out, ModflowPks.load f1 m d = .ok (p, m2, out) →
      (p.mxiter = 100 ∧ p.innerit = 50 ∧ p.isolver = 1 ∧ p.npc = 2 ∧
       p.iscl = 0 ∧ p.iord = 0 ∧ p.ncoresm = 1 ∧ p.ncoresv = 1 ∧
       p.damp = "1.0" ∧ p.dampt = "1.0" ∧ p.relax = "0.97" ∧ p.ifill = 0 ∧
       p.droptol = "0.0" ∧ p.hclose = "0.001" ∧ p.rclose = "0.1" ∧
       p.l2norm = none ∧ p.iprpks = 0 ∧ p.mutpks = 3 ∧ p.mpi = false ∧
       p.partopt = 0 ∧ p.novlapimpsol = 1 ∧ p.stenimpsol = 2 ∧
       p.verbose = 0 ∧ p.partdata = none) ∧
      "   Warning: load method not completed. default pks object created." ∈ out ∧
      (d = none → p.unit_number = 27 ∧ p.file_name = none) ∧
      (∀ dd e, d = some dd →
        dd.find? (fun x => x.filetype == "PKS") = some e →
        p.unit_number = e.unit_no ∧ p.file_name = some e.filename) := by
  constructor
  · rfl
  · intro p m2 out h
    rcases d with _ | dd
    · simp only [ModflowPks.load] at h
      split at h
      · simp at h
      · rename_i p' m' heq
        simp only [Except.ok.injEq, Prod.mk.injEq] at h
        obtain ⟨rfl, rfl, rfl⟩ := h
        simp only [ModflowPks.init, normalizeFilenames] at heq
        split at heq
        · simp at heq
        · simp only [Except.ok.injEq, Prod.mk.injEq] at heq
          obtain ⟨rfl, rfl⟩ := heq
          refine ⟨by simp, by simp, fun _ => ⟨rfl, rfl⟩, ?_⟩
          intro dd e h0
          simp at h0
    · simp only [ModflowPks.load] at h
      split at h
      · simp at h
      · rename_i p' m' heq
        simp only [Except.ok.injEq, Prod.mk.injEq] at h
        obtain ⟨rfl, rfl, rfl⟩ := h
        simp only [ModflowPks.init, normalizeFilenames] at heq
        split at heq
        · simp at heq
        · simp only [Except.ok.injEq, Prod.mk.injEq] at heq
          obtain ⟨rfl, rfl⟩ := heq
          refine ⟨by simp, by simp, ?_, ?_⟩
          · intro h0; simp at h0
          · intro dd2 e h0 hfind
            obtain rfl : dd = dd2 := by simpa using h0
            have hg : get_ext_dict_attr dd ModflowPks.ftype =
                (some e.unit_no, some e.filename) := by
              simp [get_ext_dict_attr, ModflowPks.ftype, hfind]
            constructor
            · simp [hg, ModflowPks.defaultunit]
            · simp [hg, normalizeFilenames]

theorem relax_line_iff_npc_pos_witness :
    0 < pksA.npc ∧
    keyCount ((write_file pksA).toOption.getD []) "RELAX" = 1 ∧
    Line.kv "RELAX" "0.97" ∈ (write_file pksA).toOption.getD [] := by
  have h : write_file pksA = .ok ((write_file pksA).toOption.getD []) := rfl
  have hc := (relax_line_iff_npc_pos pksA _ h).2 (by decide)
  exact ⟨by decide, hc.1, hc.2⟩

theorem ifill_droptol_iff_npc_eq_three_witness :
    keyCount ((write_file pksB).toOption.getD []) "IFILL" = 1 ∧
    ∃ pre suf, (write_file pksB).toOption.getD [] =
      pre ++ [Line.kv "IFILL" "0", Line.kv "DROPTOL" "0.0"] ++ suf := by
  have h : write_file pksB = .ok ((write_file pksB).toOption.getD []) := rfl
  have hc := (ifill_droptol_iff_npc_eq_three pksB _ h).2 rfl
  exact ⟨hc.1, hc.2.2⟩

theorem norm_line_selection_witness :
    bareCount ((write_file pksC).toOption.getD []) "L2NORM" = 1 ∧
    bareCount ((write_file pksC).toOption.getD []) "RELATIVE-L2NORM" = 0 := by
  have h : write_file pksC = .ok ((write_file pksC).toOption.getD []) := rfl
  exact ((norm_line_selection pksC _ h).2.2 "L2NORM" rfl).1 (by decide)

theorem init_version_check_witness :
    ModflowPks.init mBad {} =
      .error "Error: cannot use [\x27PKS\x27] package with model version mf2k" ∧
    ∃ p m2, ModflowPks.init mfA {} = .ok (p, m2) ∧
      m2.packages = mfA.packages ++ [p] := by
  exact ⟨(init_version_check mBad {} (by decide)).1 (Or.inl rfl),
    (init_version_check mfA {} (by decide)).2 (by decide)⟩

theorem mpi_partition_block_witness :
    keyCount ((write_file pksE).toOption.getD []) "PARTOPT" = 1 ∧
    ∃ front, (write_file pksE).toOption.getD [] = front ++
      [Line.kv "MUTPKS" "3", Line.kv "PARTOPT" "0", Line.kv "NOVLAPIMPSOL" "1",
       Line.kv "STENIMPSOL" "2", Line.kv "VERBOSE" "0", Line.kw "END"] := by
  have h : write_file pksE = .ok ((write_file pksE).toOption.getD []) := rfl
  have hc := (mpi_partition_block pksE _ h).1 rfl
  exact ⟨hc.2.1, hc.1⟩

theorem unrecognized_norm_token_silent_witness :
    write_file pksF = write_file { pksF with l2norm := none } :=
  (unrecognized_norm_token_silent pksF "unknown" rfl (by decide) (by decide)).1

theorem ncores_lines_iff_gt_one_witness :
    1 < pksG.ncoresm ∧
    keyCount ((write_file pksG).toOption.getD []) "NCORESM" = 1 ∧
    keyCount ((write_file pksG).toOption.getD []) "NCORESV" = 0 := by
  have h : write_file pksG = .ok ((write_file pksG).toOption.getD []) := rfl
  have hc := ncores_lines_iff_gt_one pksG _ h
  exact ⟨by decide, hc.1.trans (by decide), hc.2.1.trans (by decide)⟩

theorem load_returns_defaults_witness :
    ModflowPks.load "test.pks" mfA (some [eEx]) = .ok (pH, mH, outH) ∧
    pH.unit_number = 51 ∧ pH.file_name = some "model.pks" ∧ pH.npc = 2 ∧
    "   Warning: load method not completed. default pks object created." ∈ outH := by
  have h : ModflowPks.load "test.pks" mfA (some [eEx]) = .ok (pH, mH, outH) := rfl
  have hc := (load_returns_defaults "test.pks" "other.pks" mfA (some [eEx])).2
    pH mH outH h
  have hu := hc.2.2.2 [eEx] eEx rfl rfl
  exact ⟨h, hu.1, hu.2, hc.1.2.2.2.1, hc.2.1⟩

theorem output_ends_with_end_witness :
    ((write_file pksA).toOption.getD []).getLast? = some (Line.kw "END") := by
  have h : write_file pksA = .ok ((write_file pksA).toOption.getD []) := rfl
  exact (output_ends_with_end pksA _ h).1

theorem nonstring_l2norm_raises_witness :
    write_file pksJ = .error "AttributeError: int object has no attribute lower" :=
  nonstring_l2norm_raises pksJ 1 rfl
